import Mathlib

/-!
Verification development for src/gpu/gpu_info_cuda.c and gpu_info_cuda.h:
runtime detection of a CUDA acceleration library, backend selection between
the cudart ("runtime") and nvml ("management") vocabularies, and the
device-enumeration aggregators for VRAM and compute capability.

Shallow embedding conventions:
  * pointers are modelled by whether they are non-null (`Bool`);
  * the dynamic loader and the library entry points are external
    collaborators, modelled by behaviour records (`InitEnv`, `QueryFns`);
  * C `unsigned long long` accumulation is arithmetic modulo `W64 = 2^64`;
  * `snprintf(buf, 256, ...)` writes at most 255 characters (`snprintf255`);
  * query operations additionally return the list of backend entry points
    they invoked, so that "no backend call was made" is expressible.
-/

set_option linter.unusedVariables false
set_option maxRecDepth 8000

namespace GpuInfoCuda

/-- cudaLibraryType_t from gpu_info_cuda.h: which backend vocabulary is
active on a handle. -/
inductive cudaLibraryType_t
  | LIBUNKNOWN
  | LIBCUDART
  | LIBNVIDIAML
deriving DecidableEq

export cudaLibraryType_t (LIBUNKNOWN LIBCUDART LIBNVIDIAML)

/-- Numeric value of the C enum cudaLibraryType_t, as printed by "%d". -/
def cudaLibraryType_t.code : cudaLibraryType_t → Nat
  | LIBUNKNOWN => 0
  | LIBCUDART => 1
  | LIBNVIDIAML => 2

/-- Wrap-around bound of C `unsigned long long` (64-bit): 2^64. -/
def W64 : Nat := 18446744073709551616

/-- snprintf with the 256-byte stack buffer used throughout the file writes
at most 255 characters (plus the terminator). -/
def snprintf255 (s : String) : String := String.mk (s.data.take 255)

/-- Character-list test: does the second list start with the first? -/
def isPrefixChars : List Char → List Char → Bool
  | [], _ => true
  | _ :: _, [] => false
  | a :: as, b :: bs => a == b && isPrefixChars as bs

/-- Character-list test: does the second list contain the first as a
contiguous substring? -/
def containsChars (sub : List Char) : List Char → Bool
  | [] => isPrefixChars sub []
  | b :: bs => isPrefixChars sub (b :: bs) || containsChars sub bs

/-- String s contains sub as a contiguous substring. -/
def strContains (s sub : String) : Bool := containsChars sub.data s.data

/-- cuda_handle_t (gpu_info_cuda.h): the open-library reference and each
resolved entry-point slot are modelled by whether they are non-null. -/
structure cuda_handle_t where
  handle : Bool
  verbose : Bool
  lib_t : cudaLibraryType_t
  nvmlInit_v2 : Bool
  nvmlShutdown : Bool
  nvmlDeviceGetHandleByIndex : Bool
  nvmlDeviceGetMemoryInfo : Bool
  nvmlDeviceGetCount_v2 : Bool
  nvmlDeviceGetCudaComputeCapability : Bool
  nvmlSystemGetDriverVersion : Bool
  nvmlDeviceGetName : Bool
  nvmlDeviceGetSerial : Bool
  nvmlDeviceGetVbiosVersion : Bool
  nvmlDeviceGetBoardPartNumber : Bool
  nvmlDeviceGetBrand : Bool
  cudaSetDevice : Bool
  cudaDeviceReset : Bool
  cudaMemGetInfo : Bool
  cudaGetDeviceCount : Bool
  cudaDeviceGetAttribute : Bool
  cudaDriverGetVersion : Bool
deriving DecidableEq

/-- cuda_init_resp_t (gpu_info_cuda.h). -/
structure cuda_init_resp_t where
  err : Option String
  ch : cuda_handle_t
deriving DecidableEq

/-- Behaviour of the external collaborators consulted by cuda_init: the
dynamic loader (open / per-symbol resolution) and the activation and
driver-version entry points it calls.  Return code 0 is CUDART_SUCCESS /
NVML_SUCCESS. -/
structure InitEnv where
  openOk : Bool
  loadErrMsg : String
  resolve : String → Bool
  cudaSetDevice0 : Nat
  nvmlInit : Nat
  cudaDriverGetVersion : Nat × Int
  nvmlSystemGetDriverVersion : Nat

/-- The symbol-resolution loop of cuda_init (gpu_info_cuda.c lines 55-71).
Each iteration stores LOAD_SYMBOL's result through l[i].p and then tests
`!l[i].p`; since l[i].p is the address of a field of resp->ch it is never
NULL, so the "symbol lookup for %s failed" branch never executes, and every
slot - null or not - is simply stored. -/
def resolveAll (env : InitEnv) (ch : cuda_handle_t) : cuda_handle_t :=
  { ch with
    nvmlInit_v2 := env.resolve ("nvmlInit_v2")
    nvmlShutdown := env.resolve ("nvmlShutdown")
    nvmlDeviceGetHandleByIndex := env.resolve ("nvmlDeviceGetHandleByIndex")
    nvmlDeviceGetMemoryInfo := env.resolve ("nvmlDeviceGetMemoryInfo")
    nvmlDeviceGetCount_v2 := env.resolve ("nvmlDeviceGetCount_v2")
    nvmlDeviceGetCudaComputeCapability := env.resolve ("nvmlDeviceGetCudaComputeCapability")
    nvmlSystemGetDriverVersion := env.resolve ("nvmlSystemGetDriverVersion")
    nvmlDeviceGetName := env.resolve ("nvmlDeviceGetName")
    nvmlDeviceGetSerial := env.resolve ("nvmlDeviceGetSerial")
    nvmlDeviceGetVbiosVersion := env.resolve ("nvmlDeviceGetVbiosVersion")
    nvmlDeviceGetBoardPartNumber := env.resolve ("nvmlDeviceGetBoardPartNumber")
    nvmlDeviceGetBrand := env.resolve ("nvmlDeviceGetBrand")
    cudaSetDevice := env.resolve ("cudaSetDevice")
    cudaDeviceReset := env.resolve ("cudaDeviceReset")
    cudaMemGetInfo := env.resolve ("cudaMemGetInfo")
    cudaGetDeviceCount := env.resolve ("cudaGetDeviceCount")
    cudaDeviceGetAttribute := env.resolve ("cudaDeviceGetAttribute")
    cudaDriverGetVersion := env.resolve ("cudaDriverGetVersion") }

/-- The driver-version switch at the end of cuda_init (lines 101-130).
The LIBCUDART case reports (result only logged) and breaks.  The
LIBNVIDIAML case reports (result only logged) and, lacking a `break`,
falls through into the `default` case, which clears the handle, unloads
the library and sets the "unknown error" message.  LIBUNKNOWN reaches the
`default` case directly. -/
def driverVersionReport (env : InitEnv) (resp : cuda_init_resp_t) : cuda_init_resp_t :=
  match resp.ch.lib_t with
  | LIBCUDART =>
      let _ := env.cudaDriverGetVersion
      resp
  | LIBNVIDIAML =>
      let _ := env.nvmlSystemGetDriverVersion
      { resp with
        ch := { resp.ch with handle := false }
        err := some (snprintf255 ("unknown error: dlsym succeded but function pointers are unassigned")) }
  | LIBUNKNOWN =>
      { resp with
        ch := { resp.ch with handle := false }
        err := some (snprintf255 ("unknown error: dlsym succeded but function pointers are unassigned")) }

/-- cuda_init (gpu_info_cuda.c lines 7-131), acting on the caller-supplied
response struct `resp0` (whose stale contents the C code overwrites
field by field). -/
def cuda_init (cuda_lib_path : String) (env : InitEnv) (resp0 : cuda_init_resp_t) :
    cuda_init_resp_t :=
  let resp1 : cuda_init_resp_t :=
    { resp0 with err := none, ch := { resp0.ch with lib_t := LIBUNKNOWN } }
  if env.openOk = false then
    { resp1 with
      ch := { resp1.ch with handle := false }
      err := some (snprintf255 ("Unable to load " ++ cuda_lib_path ++
        " library to query for Nvidia GPUs: " ++ env.loadErrMsg)) }
  else
    let respA : cuda_init_resp_t :=
      { resp1 with ch := resolveAll env { resp1.ch with handle := true } }
    if respA.ch.cudaSetDevice then
      if env.cudaSetDevice0 ≠ 0 then
        { respA with
          ch := { respA.ch with handle := false }
          err := some (snprintf255 ("cudart vram init failure: " ++
            toString env.cudaSetDevice0)) }
      else
        driverVersionReport env { respA with ch := { respA.ch with lib_t := LIBCUDART } }
    else if respA.ch.nvmlInit_v2 then
      if env.nvmlInit ≠ 0 then
        { respA with
          ch := { respA.ch with handle := false }
          err := some (snprintf255 ("nvml vram init failure: nvml error " ++
            toString env.nvmlInit)) }
      else
        driverVersionReport env { respA with ch := { respA.ch with lib_t := LIBNVIDIAML } }
    else
      driverVersionReport env respA

/-- Behaviour of the cudart entry points used by the query operations, as
(return-code, out-parameter) tuples.  cudaMemGetInfo reads the implicit
current device, which the immediately preceding cudaSetDevice call has set
to the loop index; it is therefore indexed by that device here. -/
structure CudartFns where
  cudaGetDeviceCount : Nat × Int
  cudaSetDevice : Nat → Nat
  cudaMemGetInfo : Nat → Nat × Nat × Nat
  cudaDeviceGetAttribute : Nat → Nat → Nat × Int

/-- Behaviour of the nvml entry points used by the query operations.
nvmlDeviceGetHandleByIndex yields (ret, device handle);
nvmlDeviceGetMemoryInfo yields (ret, total, free) for a device handle;
nvmlDeviceGetCudaComputeCapability yields (ret, major, minor).  The five
diagnostic entry points only produce a return code (their out-parameters
are only logged). -/
structure NvmlFns where
  nvmlDeviceGetCount_v2 : Nat × Nat
  nvmlDeviceGetHandleByIndex : Nat → Nat × Nat
  nvmlDeviceGetMemoryInfo : Nat → Nat × Nat × Nat
  nvmlDeviceGetCudaComputeCapability : Nat → Nat × Int × Int
  nvmlDeviceGetName : Nat → Nat
  nvmlDeviceGetBoardPartNumber : Nat → Nat
  nvmlDeviceGetSerial : Nat → Nat
  nvmlDeviceGetVbiosVersion : Nat → Nat
  nvmlDeviceGetBrand : Nat → Nat

/-- The behaviours of both vocabularies of resolved entry points. -/
structure QueryFns where
  cudart : CudartFns
  nvml : NvmlFns

/-- cudaDevAttrComputeCapabilityMajor (gpu_info_cuda.h). -/
def cudaDevAttrComputeCapabilityMajor : Nat := 75

/-- cudaDevAttrComputeCapabilityMinor (gpu_info_cuda.h). -/
def cudaDevAttrComputeCapabilityMinor : Nat := 76

/-- One invocation of a resolved backend entry point during a query call. -/
inductive BackendCall
  | cudaGetDeviceCount
  | cudaSetDevice (i : Nat)
  | cudaMemGetInfo (i : Nat)
  | cudaDeviceGetAttribute (attr i : Nat)
  | nvmlDeviceGetCount_v2
  | nvmlDeviceGetHandleByIndex (i : Nat)
  | nvmlDeviceGetMemoryInfo (dev : Nat)
  | nvmlDeviceGetCudaComputeCapability (dev : Nat)
  | nvmlDeviceGetName (dev : Nat)
  | nvmlDeviceGetBoardPartNumber (dev : Nat)
  | nvmlDeviceGetSerial (dev : Nat)
  | nvmlDeviceGetVbiosVersion (dev : Nat)
  | nvmlDeviceGetBrand (dev : Nat)
deriving DecidableEq

/-- mem_info_t (declared in gpu_info.h; fields as used by
gpu_info_cuda.c): error string, device count, and the 64-bit total/free
byte aggregates. -/
structure mem_info_t where
  err : Option String
  count : Int
  total : Nat
  free : Nat
deriving DecidableEq

/-- The iteration space of a C loop `for (i = s; i < s + n; i++)`. -/
def idxsFrom (s : Nat) : Nat → List Nat
  | 0 => []
  | n + 1 => s :: idxsFrom (s + 1) n

/-- Outcome of a per-device aggregation loop: error (if any), the
accumulated totals at exit, and the backend entry points invoked. -/
structure VramLoopOut where
  err : Option String
  total : Nat
  free : Nat
  calls : List BackendCall
deriving DecidableEq

/-- Per-device loop of cuda_check_vram, LIBCUDART case (lines 159-178):
select the device, query its memory, accumulate into the response which
already carries the sums of the earlier devices. -/
def cudartVramLoop (f : CudartFns) (verbose : Bool) :
    List Nat → Nat → Nat → VramLoopOut
  | [], total, free => ⟨none, total, free, []⟩
  | i :: rest, total, free =>
      let r1 := f.cudaSetDevice i
      if r1 ≠ 0 then
        ⟨some (snprintf255 ("unable to get device handle " ++ toString i ++ ": " ++
           toString r1)), total, free, [BackendCall.cudaSetDevice i]⟩
      else
        let m := f.cudaMemGetInfo i
        if m.1 ≠ 0 then
          ⟨some (snprintf255 ("device memory info lookup failure " ++ toString i ++ ": " ++
             toString m.1)), total, free,
           [BackendCall.cudaSetDevice i, BackendCall.cudaMemGetInfo i]⟩
        else
          let out := cudartVramLoop f verbose rest
            ((total + m.2.2 % W64) % W64) ((free + m.2.1 % W64) % W64)
          { out with calls := BackendCall.cudaSetDevice i ::
              BackendCall.cudaMemGetInfo i :: out.calls }

/-- The best-effort verbose per-device diagnostics of the LIBNVIDIAML case
(lines 209-243): five more entry points are invoked, their results only
logged and their failures ignored. -/
def nvmlVerboseCalls (f : NvmlFns) (dev : Nat) : List BackendCall :=
  let _ := f.nvmlDeviceGetName dev
  let _ := f.nvmlDeviceGetBoardPartNumber dev
  let _ := f.nvmlDeviceGetSerial dev
  let _ := f.nvmlDeviceGetVbiosVersion dev
  let _ := f.nvmlDeviceGetBrand dev
  [BackendCall.nvmlDeviceGetName dev, BackendCall.nvmlDeviceGetBoardPartNumber dev,
   BackendCall.nvmlDeviceGetSerial dev, BackendCall.nvmlDeviceGetVbiosVersion dev,
   BackendCall.nvmlDeviceGetBrand dev]

/-- Per-device loop of cuda_check_vram, LIBNVIDIAML case (lines 193-250):
resolve the per-device handle, query its memory, optionally emit verbose
diagnostics, accumulate. -/
def nvmlVramLoop (f : NvmlFns) (verbose : Bool) :
    List Nat → Nat → Nat → VramLoopOut
  | [], total, free => ⟨none, total, free, []⟩
  | i :: rest, total, free =>
      let dh := f.nvmlDeviceGetHandleByIndex i
      if dh.1 ≠ 0 then
        ⟨some (snprintf255 ("unable to get device handle " ++ toString i ++ ": " ++
           toString dh.1)), total, free, [BackendCall.nvmlDeviceGetHandleByIndex i]⟩
      else
        let m := f.nvmlDeviceGetMemoryInfo dh.2
        if m.1 ≠ 0 then
          ⟨some (snprintf255 ("device memory info lookup failure " ++ toString i ++ ": " ++
             toString m.1)), total, free,
           [BackendCall.nvmlDeviceGetHandleByIndex i, BackendCall.nvmlDeviceGetMemoryInfo dh.2]⟩
        else
          let diag := if verbose then nvmlVerboseCalls f dh.2 else []
          let out := nvmlVramLoop f verbose rest
            ((total + m.2.1 % W64) % W64) ((free + m.2.2 % W64) % W64)
          { out with calls := BackendCall.nvmlDeviceGetHandleByIndex i ::
              BackendCall.nvmlDeviceGetMemoryInfo dh.2 :: (diag ++ out.calls) }

/-- cuda_check_vram (gpu_info_cuda.c lines 133-259), acting on the
caller-supplied mem_info_t `resp0`; also returns the list of backend entry
points it invoked. -/
def cuda_check_vram (h : cuda_handle_t) (f : QueryFns) (resp0 : mem_info_t) :
    mem_info_t × List BackendCall :=
  let resp : mem_info_t := { resp0 with err := none }
  if h.handle = false then
    ({ resp with err := some ("cuda and nvml handle isn\x27t initialized") }, [])
  else
    match h.lib_t with
    | LIBCUDART =>
        let c := f.cudart.cudaGetDeviceCount
        let respC : mem_info_t := { resp with count := c.2 }
        if c.1 ≠ 0 then
          ({ respC with err := some (snprintf255 ("unable to get device count: " ++
              toString c.1)) }, [BackendCall.cudaGetDeviceCount])
        else
          let out := cudartVramLoop f.cudart h.verbose (idxsFrom 0 c.2.toNat) 0 0
          ({ respC with err := out.err, total := out.total, free := out.free },
           BackendCall.cudaGetDeviceCount :: out.calls)
    | LIBNVIDIAML =>
        let c := f.nvml.nvmlDeviceGetCount_v2
        let respC : mem_info_t := { resp with count := (c.2 : Int) }
        if c.1 ≠ 0 then
          ({ respC with err := some (snprintf255 ("unable to get device count: " ++
              toString c.1)) }, [BackendCall.nvmlDeviceGetCount_v2])
        else
          let out := nvmlVramLoop f.nvml h.verbose (idxsFrom 0 c.2) 0 0
          ({ respC with err := out.err, total := out.total, free := out.free },
           BackendCall.nvmlDeviceGetCount_v2 :: out.calls)
    | LIBUNKNOWN =>
        ({ resp with err := some (snprintf255 ("error detecting loaded library: " ++
            toString (cudaLibraryType_t.code h.lib_t))) }, [])

/-- cuda_compute_capability_t (gpu_info_cuda.h). -/
structure cuda_compute_capability_t where
  err : Option String
  major : Int
  minor : Int
deriving DecidableEq

/-- The running-lowest update of the compute-capability loops (lines
303-309 and 342-348): adopt the device's pair when no reading is recorded
yet (running major 0) or its major is lower; adopt only its minor when the
majors agree and its minor is lower. -/
def capUpdate (respMajor respMinor major minor : Int) : Int × Int :=
  if respMajor = 0 ∨ respMajor > major then (major, minor)
  else if respMajor = major ∧ respMinor > minor then (respMajor, minor)
  else (respMajor, respMinor)

/-- Outcome of a per-device capability loop. -/
structure CapLoopOut where
  err : Option String
  major : Int
  minor : Int
  calls : List BackendCall
deriving DecidableEq

/-- Per-device loop of cuda_compute_capability, LIBNVIDIAML case (lines
289-310). -/
def nvmlCapLoop (f : NvmlFns) : List Nat → Int → Int → CapLoopOut
  | [], respMajor, respMinor => ⟨none, respMajor, respMinor, []⟩
  | i :: rest, respMajor, respMinor =>
      let dh := f.nvmlDeviceGetHandleByIndex i
      if dh.1 ≠ 0 then
        ⟨some (snprintf255 ("unable to get device handle " ++ toString i ++ ": " ++
           toString dh.1)), respMajor, respMinor, [BackendCall.nvmlDeviceGetHandleByIndex i]⟩
      else
        let cc := f.nvmlDeviceGetCudaComputeCapability dh.2
        if cc.1 ≠ 0 then
          ⟨some (snprintf255 ("device compute capability lookup failure " ++ toString i ++
             ": " ++ toString cc.1)), respMajor, respMinor,
           [BackendCall.nvmlDeviceGetHandleByIndex i,
            BackendCall.nvmlDeviceGetCudaComputeCapability dh.2]⟩
        else
          let p := capUpdate respMajor respMinor cc.2.1 cc.2.2
          let out := nvmlCapLoop f rest p.1 p.2
          { out with calls := BackendCall.nvmlDeviceGetHandleByIndex i ::
              BackendCall.nvmlDeviceGetCudaComputeCapability dh.2 :: out.calls }

/-- Per-device loop of cuda_compute_capability, LIBCUDART case (lines
321-349). -/
def cudartCapLoop (f : CudartFns) : List Nat → Int → Int → CapLoopOut
  | [], respMajor, respMinor => ⟨none, respMajor, respMinor, []⟩
  | i :: rest, respMajor, respMinor =>
      let r1 := f.cudaSetDevice i
      if r1 ≠ 0 then
        ⟨some (snprintf255 ("unable to get device handle " ++ toString i ++ ": " ++
           toString r1)), respMajor, respMinor, [BackendCall.cudaSetDevice i]⟩
      else
        let aMaj := f.cudaDeviceGetAttribute cudaDevAttrComputeCapabilityMajor i
        if aMaj.1 ≠ 0 then
          ⟨some (snprintf255 ("device compute capability lookup failure " ++ toString i ++
             ": " ++ toString aMaj.1)), respMajor, respMinor,
           [BackendCall.cudaSetDevice i,
            BackendCall.cudaDeviceGetAttribute cudaDevAttrComputeCapabilityMajor i]⟩
        else
          let aMin := f.cudaDeviceGetAttribute cudaDevAttrComputeCapabilityMinor i
          if aMin.1 ≠ 0 then
            ⟨some (snprintf255 ("device compute capability lookup failure " ++ toString i ++
               ": " ++ toString aMin.1)), respMajor, respMinor,
             [BackendCall.cudaSetDevice i,
              BackendCall.cudaDeviceGetAttribute cudaDevAttrComputeCapabilityMajor i,
              BackendCall.cudaDeviceGetAttribute cudaDevAttrComputeCapabilityMinor i]⟩
          else
            let p := capUpdate respMajor respMinor aMaj.2 aMin.2
            let out := cudartCapLoop f rest p.1 p.2
            { out with calls := BackendCall.cudaSetDevice i ::
                BackendCall.cudaDeviceGetAttribute cudaDevAttrComputeCapabilityMajor i ::
                BackendCall.cudaDeviceGetAttribute cudaDevAttrComputeCapabilityMinor i ::
                out.calls }

/-- cuda_compute_capability (gpu_info_cuda.c lines 261-358), acting on the
caller-supplied struct `resp0`; also returns the list of backend entry
points it invoked. -/
def cuda_compute_capability (h : cuda_handle_t) (f : QueryFns)
    (resp0 : cuda_compute_capability_t) :
    cuda_compute_capability_t × List BackendCall :=
  let resp : cuda_compute_capability_t := { resp0 with err := none, major := 0, minor := 0 }
  if h.handle = false then
    ({ resp with err := some ("cuda handle not initialized") }, [])
  else
    match h.lib_t with
    | LIBNVIDIAML =>
        let c := f.nvml.nvmlDeviceGetCount_v2
        if c.1 ≠ 0 then
          ({ resp with err := some (snprintf255 ("unable to get device count: " ++
              toString c.1)) }, [BackendCall.nvmlDeviceGetCount_v2])
        else
          let out := nvmlCapLoop f.nvml (idxsFrom 0 c.2) 0 0
          ({ resp with err := out.err, major := out.major, minor := out.minor },
           BackendCall.nvmlDeviceGetCount_v2 :: out.calls)
    | LIBCUDART =>
        let c := f.cudart.cudaGetDeviceCount
        if c.1 ≠ 0 then
          ({ resp with err := some (snprintf255 ("unable to get tegra device count: " ++
              toString c.1)) }, [BackendCall.cudaGetDeviceCount])
        else
          let out := cudartCapLoop f.cudart (idxsFrom 0 c.2.toNat) 0 0
          ({ resp with err := out.err, major := out.major, minor := out.minor },
           BackendCall.cudaGetDeviceCount :: out.calls)
    | LIBUNKNOWN =>
        ({ resp with err := some (snprintf255 ("error detecting loaded library: " ++
            toString (cudaLibraryType_t.code h.lib_t))) }, [])

/-! ### Claim-side (specification) definitions and backend views -/

/-- The reduction rule exactly as the specification states it (spec §4.3):
one step of the fold over per-device (major, minor) readings. -/
def capReduceStep : Int × Int → Int × Int → Int × Int
  | (runMajor, runMinor), (major, minor) =>
      if runMajor = 0 ∨ runMajor > major then (major, minor)
      else if runMajor = major ∧ runMinor > minor then (runMajor, minor)
      else (runMajor, runMinor)

/-- The specification's reduced capability: fold of the per-device readings
starting from (0, 0). -/
def capReduce (readings : List (Int × Int)) : Int × Int :=
  readings.foldl capReduceStep (0, 0)

/-- The device-count query the active backend uses, as (ret, count):
cudaGetDeviceCount for LIBCUDART, nvmlDeviceGetCount_v2 for LIBNVIDIAML. -/
def backendCount (h : cuda_handle_t) (f : QueryFns) : Nat × Int :=
  match h.lib_t with
  | LIBCUDART => (f.cudart.cudaGetDeviceCount.1, f.cudart.cudaGetDeviceCount.2)
  | LIBNVIDIAML => (f.nvml.nvmlDeviceGetCount_v2.1, (f.nvml.nvmlDeviceGetCount_v2.2 : Int))
  | LIBUNKNOWN => (0, 0)

/-- Return code of the per-device select / handle-lookup step of §4.2 for
the active backend at index j. -/
def vramSelRet (h : cuda_handle_t) (f : QueryFns) (j : Nat) : Nat :=
  match h.lib_t with
  | LIBCUDART => f.cudart.cudaSetDevice j
  | LIBNVIDIAML => (f.nvml.nvmlDeviceGetHandleByIndex j).1
  | LIBUNKNOWN => 0

/-- Return code of the per-device memory query of §4.2 for the active
backend at index j. -/
def vramMemRet (h : cuda_handle_t) (f : QueryFns) (j : Nat) : Nat :=
  match h.lib_t with
  | LIBCUDART => (f.cudart.cudaMemGetInfo j).1
  | LIBNVIDIAML => (f.nvml.nvmlDeviceGetMemoryInfo (f.nvml.nvmlDeviceGetHandleByIndex j).2).1
  | LIBUNKNOWN => 0

/-- The total-memory reading of device j through the active backend. -/
def vramTotalRead (h : cuda_handle_t) (f : QueryFns) (j : Nat) : Nat :=
  match h.lib_t with
  | LIBCUDART => (f.cudart.cudaMemGetInfo j).2.2
  | LIBNVIDIAML => (f.nvml.nvmlDeviceGetMemoryInfo (f.nvml.nvmlDeviceGetHandleByIndex j).2).2.1
  | LIBUNKNOWN => 0

/-- The free-memory reading of device j through the active backend. -/
def vramFreeRead (h : cuda_handle_t) (f : QueryFns) (j : Nat) : Nat :=
  match h.lib_t with
  | LIBCUDART => (f.cudart.cudaMemGetInfo j).2.1
  | LIBNVIDIAML => (f.nvml.nvmlDeviceGetMemoryInfo (f.nvml.nvmlDeviceGetHandleByIndex j).2).2.2
  | LIBUNKNOWN => 0

/-- The error message the LIBCUDART case of cuda_check_vram produces when
device i is the first to fail: the select message if cudaSetDevice failed,
otherwise the memory-info message.  Both name the index i. -/
def cudartVramFailMsg (f : CudartFns) (i : Nat) : String :=
  if f.cudaSetDevice i ≠ 0 then
    snprintf255 ("unable to get device handle " ++ toString i ++ ": " ++
      toString (f.cudaSetDevice i))
  else
    snprintf255 ("device memory info lookup failure " ++ toString i ++ ": " ++
      toString (f.cudaMemGetInfo i).1)

/-- The error message the LIBNVIDIAML case of cuda_check_vram produces when
device i is the first to fail: the handle-lookup message if
nvmlDeviceGetHandleByIndex failed, otherwise the memory-info message.
Both name the index i. -/
def nvmlVramFailMsg (f : NvmlFns) (i : Nat) : String :=
  if (f.nvmlDeviceGetHandleByIndex i).1 ≠ 0 then
    snprintf255 ("unable to get device handle " ++ toString i ++ ": " ++
      toString (f.nvmlDeviceGetHandleByIndex i).1)
  else
    snprintf255 ("device memory info lookup failure " ++ toString i ++ ": " ++
      toString (f.nvmlDeviceGetMemoryInfo (f.nvmlDeviceGetHandleByIndex i).2).1)

/-- The error message cuda_check_vram produces when the per-device step at
index i is the first to fail, for the active backend. -/
def vramFailMsg (h : cuda_handle_t) (f : QueryFns) (i : Nat) : String :=
  match h.lib_t with
  | LIBCUDART => cudartVramFailMsg f.cudart i
  | LIBNVIDIAML => nvmlVramFailMsg f.nvml i
  | LIBUNKNOWN => ""

/-- Return code of the per-device select / handle-lookup step of §4.3 for
the active backend at index j. -/
def capSelRet (h : cuda_handle_t) (f : QueryFns) (j : Nat) : Nat :=
  match h.lib_t with
  | LIBCUDART => f.cudart.cudaSetDevice j
  | LIBNVIDIAML => (f.nvml.nvmlDeviceGetHandleByIndex j).1
  | LIBUNKNOWN => 0

/-- Return code of the major-capability query for the active backend at
index j (for LIBNVIDIAML the single combined query). -/
def capMajorRet (h : cuda_handle_t) (f : QueryFns) (j : Nat) : Nat :=
  match h.lib_t with
  | LIBCUDART => (f.cudart.cudaDeviceGetAttribute cudaDevAttrComputeCapabilityMajor j).1
  | LIBNVIDIAML =>
      (f.nvml.nvmlDeviceGetCudaComputeCapability (f.nvml.nvmlDeviceGetHandleByIndex j).2).1
  | LIBUNKNOWN => 0

/-- Return code of the minor-capability query for the active backend at
index j (for LIBNVIDIAML the same combined query as the major one). -/
def capMinorRet (h : cuda_handle_t) (f : QueryFns) (j : Nat) : Nat :=
  match h.lib_t with
  | LIBCUDART => (f.cudart.cudaDeviceGetAttribute cudaDevAttrComputeCapabilityMinor j).1
  | LIBNVIDIAML =>
      (f.nvml.nvmlDeviceGetCudaComputeCapability (f.nvml.nvmlDeviceGetHandleByIndex j).2).1
  | LIBUNKNOWN => 0

/-- The (major, minor) reading of device j through the active backend. -/
def capRead (h : cuda_handle_t) (f : QueryFns) (j : Nat) : Int × Int :=
  match h.lib_t with
  | LIBCUDART => ((f.cudart.cudaDeviceGetAttribute cudaDevAttrComputeCapabilityMajor j).2,
      (f.cudart.cudaDeviceGetAttribute cudaDevAttrComputeCapabilityMinor j).2)
  | LIBNVIDIAML =>
      ((f.nvml.nvmlDeviceGetCudaComputeCapability (f.nvml.nvmlDeviceGetHandleByIndex j).2).2.1,
       (f.nvml.nvmlDeviceGetCudaComputeCapability (f.nvml.nvmlDeviceGetHandleByIndex j).2).2.2)
  | LIBUNKNOWN => (0, 0)

/-! ### Concrete fixtures used by witnesses and counterexamples -/

/-- A stale caller-supplied init response: every field deliberately
non-default, to exercise the entry-point resets of the operations. -/
def staleCh : cuda_handle_t :=
  { handle := true, verbose := false, lib_t := LIBNVIDIAML,
    nvmlInit_v2 := true, nvmlShutdown := true, nvmlDeviceGetHandleByIndex := true,
    nvmlDeviceGetMemoryInfo := true, nvmlDeviceGetCount_v2 := true,
    nvmlDeviceGetCudaComputeCapability := true, nvmlSystemGetDriverVersion := true,
    nvmlDeviceGetName := true, nvmlDeviceGetSerial := true,
    nvmlDeviceGetVbiosVersion := true, nvmlDeviceGetBoardPartNumber := true,
    nvmlDeviceGetBrand := true, cudaSetDevice := true, cudaDeviceReset := true,
    cudaMemGetInfo := true, cudaGetDeviceCount := true,
    cudaDeviceGetAttribute := true, cudaDriverGetVersion := true }

/-- A stale caller-supplied init response struct. -/
def staleInitResp : cuda_init_resp_t := { err := some ("stale"), ch := staleCh }

/-- Loader environment where every symbol resolves except cudaSetDevice,
and nvmlInit_v2 succeeds: the shape of a load of the management library. -/
def envNvmlOnly : InitEnv :=
  { openOk := true, loadErrMsg := "", resolve := fun s => s != "cudaSetDevice",
    cudaSetDevice0 := 0, nvmlInit := 0, cudaDriverGetVersion := (0, 12020),
    nvmlSystemGetDriverVersion := 0 }

/-- Loader environment where every symbol resolves except nvmlShutdown,
and cudaSetDevice(0) succeeds. -/
def envMissingShutdown : InitEnv :=
  { openOk := true, loadErrMsg := "", resolve := fun s => s != "nvmlShutdown",
    cudaSetDevice0 := 0, nvmlInit := 0, cudaDriverGetVersion := (0, 12020),
    nvmlSystemGetDriverVersion := 0 }

/-- Loader environment where every symbol resolves, cudaSetDevice(0) fails
with code 1, and nvmlInit_v2 would succeed. -/
def envSetDeviceFails : InitEnv :=
  { openOk := true, loadErrMsg := "", resolve := fun _ => true,
    cudaSetDevice0 := 1, nvmlInit := 0, cudaDriverGetVersion := (0, 12020),
    nvmlSystemGetDriverVersion := 0 }

/-- Loader environment where opening the library fails with diagnostic
"zz". -/
def envOpenFails : InitEnv :=
  { openOk := false, loadErrMsg := "zz", resolve := fun _ => false,
    cudaSetDevice0 := 0, nvmlInit := 0, cudaDriverGetVersion := (0, 0),
    nvmlSystemGetDriverVersion := 0 }

/-- Loader environment where opening the library fails with a short
realistic diagnostic. -/
def envOpenFailsShort : InitEnv :=
  { openOk := false, loadErrMsg := "not found", resolve := fun _ => false,
    cudaSetDevice0 := 0, nvmlInit := 0, cudaDriverGetVersion := (0, 0),
    nvmlSystemGetDriverVersion := 0 }

/-- A 300-character library path, longer than the 256-byte message buffer. -/
def longPath : String := String.mk (List.replicate 300 ("a".get 0))

/-- Inert cudart behaviour used where the cudart vocabulary is not
exercised. -/
def dummyCudart : CudartFns :=
  { cudaGetDeviceCount := (0, 0), cudaSetDevice := fun _ => 0,
    cudaMemGetInfo := fun _ => (0, 0, 0), cudaDeviceGetAttribute := fun _ _ => (0, 0) }

/-- Inert nvml behaviour used where the nvml vocabulary is not exercised. -/
def dummyNvml : NvmlFns :=
  { nvmlDeviceGetCount_v2 := (0, 0), nvmlDeviceGetHandleByIndex := fun _ => (0, 0),
    nvmlDeviceGetMemoryInfo := fun _ => (0, 0, 0),
    nvmlDeviceGetCudaComputeCapability := fun _ => (0, 0, 0),
    nvmlDeviceGetName := fun _ => 0, nvmlDeviceGetBoardPartNumber := fun _ => 0,
    nvmlDeviceGetSerial := fun _ => 0, nvmlDeviceGetVbiosVersion := fun _ => 0,
    nvmlDeviceGetBrand := fun _ => 0 }

/-- A valid handle with the cudart backend active. -/
def hCudart : cuda_handle_t := { staleCh with lib_t := LIBCUDART }

/-- A valid handle with the nvml backend active. -/
def hNvml : cuda_handle_t := { staleCh with lib_t := LIBNVIDIAML }

/-- An invalid handle: null library reference. -/
def hNullLib : cuda_handle_t := { staleCh with handle := false }

/-- Cudart behaviour with two devices: device 0 succeeds with total 8 and
free 2, device 1 fails its cudaSetDevice call with code 1. -/
def cudartDev1Fails : CudartFns :=
  { cudaGetDeviceCount := (0, 2),
    cudaSetDevice := fun j => if j = 0 then 0 else 1,
    cudaMemGetInfo := fun _ => (0, 2, 8),
    cudaDeviceGetAttribute := fun _ _ => (0, 0) }

/-- Two cudart devices: device 0 succeeds with total 8 and free 2, device 1
fails its cudaSetDevice call with code 1. -/
def fnsDev1Fails : QueryFns := { cudart := cudartDev1Fails, nvml := dummyNvml }

/-- Cudart behaviour with two devices whose total and free readings are
each 2^63, so the unsigned 64-bit sums wrap to 0. -/
def cudartWrap : CudartFns :=
  { cudaGetDeviceCount := (0, 2),
    cudaSetDevice := fun _ => 0,
    cudaMemGetInfo := fun _ => (0, 9223372036854775808, 9223372036854775808),
    cudaDeviceGetAttribute := fun _ _ => (0, 0) }

/-- Two cudart devices whose total and free readings are each 2^63, so the
unsigned 64-bit sums wrap to 0. -/
def fnsWrap : QueryFns := { cudart := cudartWrap, nvml := dummyNvml }

/-- Nvml behaviour for the specification's synthetic two-device fleet:
devices {total 8e9, free 2e9} and {total 4e9, free 1e9}. -/
def nvmlTwoDevices : NvmlFns :=
  { dummyNvml with
    nvmlDeviceGetCount_v2 := (0, 2),
    nvmlDeviceGetHandleByIndex := fun j => (0, j),
    nvmlDeviceGetMemoryInfo := fun d =>
      if d = 0 then (0, 8000000000, 2000000000) else (0, 4000000000, 1000000000) }

/-- The specification's synthetic two-device fleet as a full behaviour. -/
def fnsTwoDevices : QueryFns := { cudart := dummyCudart, nvml := nvmlTwoDevices }

/-- Nvml behaviour for the specification's capability test fleet:
readings (8,6), (7,5), (8,0). -/
def nvmlCapFleet : NvmlFns :=
  { dummyNvml with
    nvmlDeviceGetCount_v2 := (0, 3),
    nvmlDeviceGetHandleByIndex := fun j => (0, j),
    nvmlDeviceGetCudaComputeCapability := fun d =>
      if d = 0 then (0, 8, 6) else if d = 1 then (0, 7, 5) else (0, 8, 0) }

/-- The specification's capability test fleet as a full behaviour. -/
def fnsCapFleet : QueryFns := { cudart := dummyCudart, nvml := nvmlCapFleet }

/-- A stale caller-supplied mem_info_t. -/
def staleMemInfo : mem_info_t := { err := some ("stale"), count := 7, total := 111, free := 222 }

/-- A stale caller-supplied capability struct. -/
def staleCap : cuda_compute_capability_t := { err := some ("stale"), major := 9, minor := 9 }

/-! ### Helper lemmas -/

theorem W64_pos : 0 < W64 := by decide

theorem isPrefixChars_self_append (l t : List Char) : isPrefixChars l (l ++ t) = true := by
  induction l with
  | nil => rfl
  | cons a as ih => simp [isPrefixChars, ih]

theorem containsChars_of_here {sub s : List Char} (h : isPrefixChars sub s = true) :
    containsChars sub s = true := by
  cases s with
  | nil => simpa [containsChars] using h
  | cons b bs => simp [containsChars, h]

theorem containsChars_there {sub bs : List Char} (b : Char)
    (h : containsChars sub bs = true) : containsChars sub (b :: bs) = true := by
  simp [containsChars, h]

theorem containsChars_append (pre sub post : List Char) :
    containsChars sub (pre ++ (sub ++ post)) = true := by
  induction pre with
  | nil => simpa using containsChars_of_here (isPrefixChars_self_append sub post)
  | cons c cs ih => simpa using containsChars_there c ih

theorem snprintf255_eq {s : String} (h : s.length ≤ 255) : snprintf255 s = s := by
  unfold snprintf255
  rw [List.take_of_length_le h]

theorem mem_idxsFrom : ∀ (n s j : Nat), j ∈ idxsFrom s n → s ≤ j ∧ j < s + n
  | 0, s, j, h => by simp [idxsFrom] at h
  | n + 1, s, j, h => by
      simp only [idxsFrom, List.mem_cons] at h
      rcases h with h | h
      · omega
      · have := mem_idxsFrom n (s + 1) j h
        omega

theorem capUpdate_eq_step (runMajor runMinor major minor : Int) :
    capUpdate runMajor runMinor major minor =
      capReduceStep (runMajor, runMinor) (major, minor) := rfl

/-! ### Loop characterisation lemmas -/

theorem cudartVramLoop_ok (f : CudartFns) (v : Bool) :
    ∀ (n s T F : Nat), T < W64 → F < W64 →
      (∀ j, s ≤ j → j < s + n → f.cudaSetDevice j = 0 ∧ (f.cudaMemGetInfo j).1 = 0) →
      (cudartVramLoop f v (idxsFrom s n) T F).err = none ∧
      (cudartVramLoop f v (idxsFrom s n) T F).total =
        (T + ((idxsFrom s n).map (fun j => (f.cudaMemGetInfo j).2.2 % W64)).sum) % W64 ∧
      (cudartVramLoop f v (idxsFrom s n) T F).free =
        (F + ((idxsFrom s n).map (fun j => (f.cudaMemGetInfo j).2.1 % W64)).sum) % W64 := by
  intro n
  induction n with
  | zero =>
      intro s T F hT hF hok
      simp [idxsFrom, cudartVramLoop, Nat.mod_eq_of_lt hT, Nat.mod_eq_of_lt hF]
  | succ n ih =>
      intro s T F hT hF hok
      obtain ⟨hsel, hmem⟩ := hok s (Nat.le_refl s) (by omega)
      obtain ⟨ih1, ih2, ih3⟩ := ih (s + 1) ((T + (f.cudaMemGetInfo s).2.2 % W64) % W64)
        ((F + (f.cudaMemGetInfo s).2.1 % W64) % W64)
        (Nat.mod_lt _ W64_pos) (Nat.mod_lt _ W64_pos)
        (fun j h1 h2 => hok j (by omega) (by omega))
      simp only [idxsFrom, cudartVramLoop, hsel, hmem, ne_eq, not_true_eq_false,
        if_false, List.map_cons, List.sum_cons, not_false_eq_true, ite_false,
        reduceIte]
      refine ⟨ih1, ?_, ?_⟩
      · rw [ih2, Nat.mod_add_mod, Nat.add_assoc]
      · rw [ih3, Nat.mod_add_mod, Nat.add_assoc]

theorem cudartVramLoop_fail (f : CudartFns) (v : Bool) :
    ∀ (i n s T F : Nat), i < n → T < W64 → F < W64 →
      (∀ j, j < i → f.cudaSetDevice (s + j) = 0 ∧ (f.cudaMemGetInfo (s + j)).1 = 0) →
      (f.cudaSetDevice (s + i) ≠ 0 ∨ (f.cudaMemGetInfo (s + i)).1 ≠ 0) →
      (cudartVramLoop f v (idxsFrom s n) T F).err = some (cudartVramFailMsg f (s + i)) ∧
      (cudartVramLoop f v (idxsFrom s n) T F).total =
        (T + ((idxsFrom s i).map (fun j => (f.cudaMemGetInfo j).2.2 % W64)).sum) % W64 ∧
      (cudartVramLoop f v (idxsFrom s n) T F).free =
        (F + ((idxsFrom s i).map (fun j => (f.cudaMemGetInfo j).2.1 % W64)).sum) % W64 := by
  intro i
  induction i with
  | zero =>
      intro n s T F hin hT hF hok hfail
      obtain ⟨n, rfl⟩ : ∃ m, n = m + 1 := ⟨n - 1, by omega⟩
      by_cases hsel : f.cudaSetDevice (s + 0) = 0
      · have hmem : (f.cudaMemGetInfo (s + 0)).1 ≠ 0 := by
          rcases hfail with h | h
          · exact absurd hsel h
          · exact h
        simp only [Nat.add_zero] at hsel hmem
        simp [idxsFrom, cudartVramLoop, cudartVramFailMsg, hsel, hmem,
          Nat.mod_eq_of_lt hT, Nat.mod_eq_of_lt hF]
      · simp only [Nat.add_zero] at hsel
        simp [idxsFrom, cudartVramLoop, cudartVramFailMsg, hsel,
          Nat.mod_eq_of_lt hT, Nat.mod_eq_of_lt hF]
  | succ i ih =>
      intro n s T F hin hT hF hok hfail
      obtain ⟨n, rfl⟩ : ∃ m, n = m + 1 := ⟨n - 1, by omega⟩
      obtain ⟨hsel, hmem⟩ := hok 0 (Nat.succ_pos i)
      simp only [Nat.add_zero] at hsel hmem
      have hfail2 : f.cudaSetDevice ((s + 1) + i) ≠ 0 ∨
          (f.cudaMemGetInfo ((s + 1) + i)).1 ≠ 0 := by
        have e : (s + 1) + i = s + (i + 1) := by omega
        rw [e]; exact hfail
      obtain ⟨ih1, ih2, ih3⟩ := ih n (s + 1) ((T + (f.cudaMemGetInfo s).2.2 % W64) % W64)
        ((F + (f.cudaMemGetInfo s).2.1 % W64) % W64) (by omega)
        (Nat.mod_lt _ W64_pos) (Nat.mod_lt _ W64_pos)
        (fun j hj => by
          have h := hok (j + 1) (by omega)
          have e : s + (j + 1) = (s + 1) + j := by omega
          rw [e] at h
          exact h)
        hfail2
      have e2 : (s + 1) + i = s + (i + 1) := by omega
      rw [e2] at ih1
      simp only [idxsFrom, cudartVramLoop, hsel, hmem, ne_eq, not_true_eq_false,
        if_false, not_false_eq_true, ite_false, reduceIte, List.map_cons, List.sum_cons]
      refine ⟨ih1, ?_, ?_⟩
      · rw [ih2, Nat.mod_add_mod, Nat.add_assoc]
      · rw [ih3, Nat.mod_add_mod, Nat.add_assoc]

theorem nvmlVramLoop_ok (f : NvmlFns) (v : Bool) :
    ∀ (n s T F : Nat), T < W64 → F < W64 →
      (∀ j, s ≤ j → j < s + n → (f.nvmlDeviceGetHandleByIndex j).1 = 0 ∧
        (f.nvmlDeviceGetMemoryInfo (f.nvmlDeviceGetHandleByIndex j).2).1 = 0) →
      (nvmlVramLoop f v (idxsFrom s n) T F).err = none ∧
      (nvmlVramLoop f v (idxsFrom s n) T F).total =
        (T + ((idxsFrom s n).map (fun j =>
          (f.nvmlDeviceGetMemoryInfo (f.nvmlDeviceGetHandleByIndex j).2).2.1 % W64)).sum) % W64 ∧
      (nvmlVramLoop f v (idxsFrom s n) T F).free =
        (F + ((idxsFrom s n).map (fun j =>
          (f.nvmlDeviceGetMemoryInfo (f.nvmlDeviceGetHandleByIndex j).2).2.2 % W64)).sum) % W64 := by
  intro n
  induction n with
  | zero =>
      intro s T F hT hF hok
      simp [idxsFrom, nvmlVramLoop, Nat.mod_eq_of_lt hT, Nat.mod_eq_of_lt hF]
  | succ n ih =>
      intro s T F hT hF hok
      obtain ⟨hsel, hmem⟩ := hok s (Nat.le_refl s) (by omega)
      obtain ⟨ih1, ih2, ih3⟩ := ih (s + 1)
        ((T + (f.nvmlDeviceGetMemoryInfo (f.nvmlDeviceGetHandleByIndex s).2).2.1 % W64) % W64)
        ((F + (f.nvmlDeviceGetMemoryInfo (f.nvmlDeviceGetHandleByIndex s).2).2.2 % W64) % W64)
        (Nat.mod_lt _ W64_pos) (Nat.mod_lt _ W64_pos)
        (fun j h1 h2 => hok j (by omega) (by omega))
      simp only [nvmlVramLoop, idxsFrom, hsel, hmem, ne_eq, not_true_eq_false,
        if_false, not_false_eq_true, ite_false, reduceIte, List.map_cons, List.sum_cons]
      refine ⟨ih1, ?_, ?_⟩
      · rw [ih2, Nat.mod_add_mod, Nat.add_assoc]
      · rw [ih3, Nat.mod_add_mod, Nat.add_assoc]

theorem nvmlVramLoop_fail (f : NvmlFns) (v : Bool) :
    ∀ (i n s T F : Nat), i < n → T < W64 → F < W64 →
      (∀ j, j < i → (f.nvmlDeviceGetHandleByIndex (s + j)).1 = 0 ∧
        (f.nvmlDeviceGetMemoryInfo (f.nvmlDeviceGetHandleByIndex (s + j)).2).1 = 0) →
      ((f.nvmlDeviceGetHandleByIndex (s + i)).1 ≠ 0 ∨
        (f.nvmlDeviceGetMemoryInfo (f.nvmlDeviceGetHandleByIndex (s + i)).2).1 ≠ 0) →
      (nvmlVramLoop f v (idxsFrom s n) T F).err = some (nvmlVramFailMsg f (s + i)) ∧
      (nvmlVramLoop f v (idxsFrom s n) T F).total =
        (T + ((idxsFrom s i).map (fun j =>
          (f.nvmlDeviceGetMemoryInfo (f.nvmlDeviceGetHandleByIndex j).2).2.1 % W64)).sum) % W64 ∧
      (nvmlVramLoop f v (idxsFrom s n) T F).free =
        (F + ((idxsFrom s i).map (fun j =>
          (f.nvmlDeviceGetMemoryInfo (f.nvmlDeviceGetHandleByIndex j).2).2.2 % W64)).sum) % W64 := by
  intro i
  induction i with
  | zero =>
      intro n s T F hin hT hF hok hfail
      obtain ⟨n, rfl⟩ : ∃ m, n = m + 1 := ⟨n - 1, by omega⟩
      by_cases hsel : (f.nvmlDeviceGetHandleByIndex (s + 0)).1 = 0
      · have hmem : (f.nvmlDeviceGetMemoryInfo (f.nvmlDeviceGetHandleByIndex (s + 0)).2).1 ≠ 0 := by
          rcases hfail with h | h
          · exact absurd hsel h
          · exact h
        simp only [Nat.add_zero] at hsel hmem
        simp [idxsFrom, nvmlVramLoop, nvmlVramFailMsg, hsel, hmem,
          Nat.mod_eq_of_lt hT, Nat.mod_eq_of_lt hF]
      · simp only [Nat.add_zero] at hsel
        simp [idxsFrom, nvmlVramLoop, nvmlVramFailMsg, hsel,
          Nat.mod_eq_of_lt hT, Nat.mod_eq_of_lt hF]
  | succ i ih =>
      intro n s T F hin hT hF hok hfail
      obtain ⟨n, rfl⟩ : ∃ m, n = m + 1 := ⟨n - 1, by omega⟩
      obtain ⟨hsel, hmem⟩ := hok 0 (Nat.succ_pos i)
      simp only [Nat.add_zero] at hsel hmem
      have hfail2 : (f.nvmlDeviceGetHandleByIndex ((s + 1) + i)).1 ≠ 0 ∨
          (f.nvmlDeviceGetMemoryInfo (f.nvmlDeviceGetHandleByIndex ((s + 1) + i)).2).1 ≠ 0 := by
        have e : (s + 1) + i = s + (i + 1) := by omega
        rw [e]; exact hfail
      obtain ⟨ih1, ih2, ih3⟩ := ih n (s + 1)
        ((T + (f.nvmlDeviceGetMemoryInfo (f.nvmlDeviceGetHandleByIndex s).2).2.1 % W64) % W64)
        ((F + (f.nvmlDeviceGetMemoryInfo (f.nvmlDeviceGetHandleByIndex s).2).2.2 % W64) % W64)
        (by omega) (Nat.mod_lt _ W64_pos) (Nat.mod_lt _ W64_pos)
        (fun j hj => by
          have h := hok (j + 1) (by omega)
          have e : s + (j + 1) = (s + 1) + j := by omega
          rw [e] at h
          exact h)
        hfail2
      have e2 : (s + 1) + i = s + (i + 1) := by omega
      rw [e2] at ih1
      simp only [nvmlVramLoop, idxsFrom, hsel, hmem, ne_eq, not_true_eq_false,
        if_false, not_false_eq_true, ite_false, reduceIte, List.map_cons, List.sum_cons]
      refine ⟨ih1, ?_, ?_⟩
      · rw [ih2, Nat.mod_add_mod, Nat.add_assoc]
      · rw [ih3, Nat.mod_add_mod, Nat.add_assoc]

theorem nvmlCapLoop_ok (f : NvmlFns) :
    ∀ (n s : Nat) (M m : Int),
      (∀ j, s ≤ j → j < s + n → (f.nvmlDeviceGetHandleByIndex j).1 = 0 ∧
        (f.nvmlDeviceGetCudaComputeCapability (f.nvmlDeviceGetHandleByIndex j).2).1 = 0) →
      (nvmlCapLoop f (idxsFrom s n) M m).err = none ∧
      ((nvmlCapLoop f (idxsFrom s n) M m).major, (nvmlCapLoop f (idxsFrom s n) M m).minor) =
        ((idxsFrom s n).map (fun j =>
          ((f.nvmlDeviceGetCudaComputeCapability (f.nvmlDeviceGetHandleByIndex j).2).2.1,
           (f.nvmlDeviceGetCudaComputeCapability (f.nvmlDeviceGetHandleByIndex j).2).2.2))).foldl
          capReduceStep (M, m) := by
  intro n
  induction n with
  | zero =>
      intro s M m hok
      simp [idxsFrom, nvmlCapLoop]
  | succ n ih =>
      intro s M m hok
      obtain ⟨hsel, hcap⟩ := hok s (Nat.le_refl s) (by omega)
      obtain ⟨ih1, ih2⟩ := ih (s + 1)
        (capUpdate M m (f.nvmlDeviceGetCudaComputeCapability (f.nvmlDeviceGetHandleByIndex s).2).2.1
          (f.nvmlDeviceGetCudaComputeCapability (f.nvmlDeviceGetHandleByIndex s).2).2.2).1
        (capUpdate M m (f.nvmlDeviceGetCudaComputeCapability (f.nvmlDeviceGetHandleByIndex s).2).2.1
          (f.nvmlDeviceGetCudaComputeCapability (f.nvmlDeviceGetHandleByIndex s).2).2.2).2
        (fun j h1 h2 => hok j (by omega) (by omega))
      simp only [nvmlCapLoop, idxsFrom, hsel, hcap, ne_eq, not_true_eq_false,
        if_false, not_false_eq_true, ite_false, reduceIte, List.map_cons, List.foldl_cons]
      refine ⟨ih1, ?_⟩
      rw [ih2, Prod.mk.eta, capUpdate_eq_step]

theorem cudartCapLoop_ok (f : CudartFns) :
    ∀ (n s : Nat) (M m : Int),
      (∀ j, s ≤ j → j < s + n → f.cudaSetDevice j = 0 ∧
        (f.cudaDeviceGetAttribute cudaDevAttrComputeCapabilityMajor j).1 = 0 ∧
        (f.cudaDeviceGetAttribute cudaDevAttrComputeCapabilityMinor j).1 = 0) →
      (cudartCapLoop f (idxsFrom s n) M m).err = none ∧
      ((cudartCapLoop f (idxsFrom s n) M m).major, (cudartCapLoop f (idxsFrom s n) M m).minor) =
        ((idxsFrom s n).map (fun j =>
          ((f.cudaDeviceGetAttribute cudaDevAttrComputeCapabilityMajor j).2,
           (f.cudaDeviceGetAttribute cudaDevAttrComputeCapabilityMinor j).2))).foldl
          capReduceStep (M, m) := by
  intro n
  induction n with
  | zero =>
      intro s M m hok
      simp [idxsFrom, cudartCapLoop]
  | succ n ih =>
      intro s M m hok
      obtain ⟨hsel, hmaj, hmin⟩ := hok s (Nat.le_refl s) (by omega)
      obtain ⟨ih1, ih2⟩ := ih (s + 1)
        (capUpdate M m (f.cudaDeviceGetAttribute cudaDevAttrComputeCapabilityMajor s).2
          (f.cudaDeviceGetAttribute cudaDevAttrComputeCapabilityMinor s).2).1
        (capUpdate M m (f.cudaDeviceGetAttribute cudaDevAttrComputeCapabilityMajor s).2
          (f.cudaDeviceGetAttribute cudaDevAttrComputeCapabilityMinor s).2).2
        (fun j h1 h2 => hok j (by omega) (by omega))
      simp only [cudartCapLoop, idxsFrom, hsel, hmaj, hmin, ne_eq, not_true_eq_false,
        if_false, not_false_eq_true, ite_false, reduceIte, List.map_cons, List.foldl_cons]
      refine ⟨ih1, ?_⟩
      rw [ih2, Prod.mk.eta, capUpdate_eq_step]

/-! ### Claim theorems -/

/-- C7: for every invalid Handle (null library reference, or Backend Tag
equal to unknown), both cuda_check_vram and cuda_compute_capability return
a non-null err without invoking any backend entry point from the Handle's
table (their invocation lists are empty). -/
theorem invalid_handle_fast_fail (h : cuda_handle_t) (f : QueryFns)
    (m0 : mem_info_t) (c0 : cuda_compute_capability_t)
    (hinv : h.handle = false ∨ h.lib_t = LIBUNKNOWN) :
    ((cuda_check_vram h f m0).1.err ≠ none ∧ (cuda_check_vram h f m0).2 = []) ∧
    ((cuda_compute_capability h f c0).1.err ≠ none ∧
      (cuda_compute_capability h f c0).2 = []) := by
  rcases hinv with hh | hl
  · simp [cuda_check_vram, cuda_compute_capability, hh]
  · by_cases hh : h.handle = false
    · simp [cuda_check_vram, cuda_compute_capability, hh]
    · simp [cuda_check_vram, cuda_compute_capability, hh, hl]

/-- C7 witness: a handle with a null library reference is rejected by both
queries with no backend calls. -/
theorem invalid_handle_fast_fail_witness :
    ((cuda_check_vram hNullLib fnsTwoDevices staleMemInfo).1.err ≠ none ∧
      (cuda_check_vram hNullLib fnsTwoDevices staleMemInfo).2 = []) ∧
    ((cuda_compute_capability hNullLib fnsTwoDevices staleCap).1.err ≠ none ∧
      (cuda_compute_capability hNullLib fnsTwoDevices staleCap).2 = []) :=
  invalid_handle_fast_fail hNullLib fnsTwoDevices staleMemInfo staleCap (Or.inl (by decide))

/-- C9: each of cuda_init, cuda_check_vram and cuda_compute_capability
assigns NULL to the result's err field before doing anything else, so the
err it returns never depends on the caller-supplied struct's stale
contents. -/
theorem result_err_independent_of_caller_struct (p : String) (env : InitEnv)
    (r0 r1 : cuda_init_resp_t) (h : cuda_handle_t) (f : QueryFns)
    (m0 m1 : mem_info_t) (c0 c1 : cuda_compute_capability_t) :
    (cuda_init p env r0).err = (cuda_init p env r1).err ∧
    (cuda_check_vram h f m0).1.err = (cuda_check_vram h f m1).1.err ∧
    (cuda_compute_capability h f c0).1.err = (cuda_compute_capability h f c1).1.err := by
  refine ⟨?_, ?_, ?_⟩
  · by_cases h1 : env.openOk = false
    · simp [cuda_init, h1]
    · by_cases h2 : env.resolve ("cudaSetDevice") = true
      · by_cases h3 : env.cudaSetDevice0 = 0
        · simp [cuda_init, resolveAll, driverVersionReport, h1, h2, h3]
        · simp [cuda_init, resolveAll, h1, h2, h3]
      · by_cases h4 : env.resolve ("nvmlInit_v2") = true
        · by_cases h5 : env.nvmlInit = 0
          · simp [cuda_init, resolveAll, driverVersionReport, h1, h2, h4, h5]
          · simp [cuda_init, resolveAll, h1, h2, h4, h5]
        · simp [cuda_init, resolveAll, driverVersionReport, h1, h2, h4]
  · by_cases hh : h.handle = false
    · simp [cuda_check_vram, hh]
    · cases hl : h.lib_t
      · simp [cuda_check_vram, hh, hl]
      · by_cases hc : f.cudart.cudaGetDeviceCount.1 = 0 <;>
          simp [cuda_check_vram, hh, hl, hc]
      · by_cases hc : f.nvml.nvmlDeviceGetCount_v2.1 = 0 <;>
          simp [cuda_check_vram, hh, hl, hc]
  · by_cases hh : h.handle = false
    · simp [cuda_compute_capability, hh]
    · cases hl : h.lib_t
      · simp [cuda_compute_capability, hh, hl]
      · by_cases hc : f.cudart.cudaGetDeviceCount.1 = 0 <;>
          simp [cuda_compute_capability, hh, hl, hc]
      · by_cases hc : f.nvml.nvmlDeviceGetCount_v2.1 = 0 <;>
          simp [cuda_compute_capability, hh, hl, hc]

/-- C10: cuda_compute_capability writes major = 0 and minor = 0 before any
validity check, so every call that fails before the first device reading
(null library reference, unknown Backend Tag, or failed device-count
query) returns exactly the pair (0, 0) alongside a non-null err. -/
theorem cuda_compute_capability_zero_pair_on_early_failure (h : cuda_handle_t)
    (f : QueryFns) (c0 : cuda_compute_capability_t)
    (hfail : h.handle = false ∨ h.lib_t = LIBUNKNOWN ∨ (backendCount h f).1 ≠ 0) :
    (cuda_compute_capability h f c0).1.major = 0 ∧
    (cuda_compute_capability h f c0).1.minor = 0 ∧
    (cuda_compute_capability h f c0).1.err ≠ none := by
  by_cases hh : h.handle = false
  · simp [cuda_compute_capability, hh]
  · rcases hfail with h1 | h2 | h3
    · exact absurd h1 hh
    · simp [cuda_compute_capability, hh, h2]
    · cases hl : h.lib_t
      · simp [cuda_compute_capability, hh, hl]
      · rw [backendCount, hl] at h3
        simp only [] at h3
        simp [cuda_compute_capability, hh, hl, h3]
      · rw [backendCount, hl] at h3
        simp only [] at h3
        simp [cuda_compute_capability, hh, hl, h3]

/-- C10 witness: a call with a null library reference returns (0, 0) and a
non-null err. -/
theorem cuda_compute_capability_zero_pair_witness :
    (cuda_compute_capability hNullLib fnsTwoDevices staleCap).1.major = 0 ∧
    (cuda_compute_capability hNullLib fnsTwoDevices staleCap).1.minor = 0 ∧
    (cuda_compute_capability hNullLib fnsTwoDevices staleCap).1.err ≠ none :=
  cuda_compute_capability_zero_pair_on_early_failure hNullLib fnsTwoDevices staleCap
    (Or.inl (by decide))

/-- C5: for every valid Handle and every sequence of per-device
(major, minor) readings returned by the active backend (all backend steps
succeeding), cuda_compute_capability returns err NULL together with the
fold of the readings starting from (0, 0) under the specification's
reduction rule; in particular zero devices yield (0, 0) with err NULL. -/
theorem cuda_compute_capability_fold (h : cuda_handle_t) (f : QueryFns)
    (c0 : cuda_compute_capability_t) (n : Nat)
    (hh : h.handle = true) (hlib : h.lib_t ≠ LIBUNKNOWN)
    (hcnt : backendCount h f = (0, (n : Int)))
    (hok : ∀ j, j < n →
      capSelRet h f j = 0 ∧ capMajorRet h f j = 0 ∧ capMinorRet h f j = 0) :
    (cuda_compute_capability h f c0).1.err = none ∧
    ((cuda_compute_capability h f c0).1.major, (cuda_compute_capability h f c0).1.minor) =
      capReduce ((idxsFrom 0 n).map (capRead h f)) := by
  cases hl : h.lib_t
  · exact absurd hl hlib
  · -- LIBCUDART
    rw [backendCount, hl] at hcnt
    have hr : f.cudart.cudaGetDeviceCount.1 = 0 := by
      simpa using congrArg Prod.fst hcnt
    have hn : f.cudart.cudaGetDeviceCount.2 = (n : Int) := by
      simpa using congrArg Prod.snd hcnt
    simp only [capSelRet, capMajorRet, capMinorRet, hl] at hok
    obtain ⟨l1, l2⟩ := cudartCapLoop_ok f.cudart n 0 0 0
      (fun j h1 h2 => by
        obtain ⟨a, b, c⟩ := hok j (by omega)
        exact ⟨a, b, c⟩)
    have hfun : capRead h f = fun j =>
        ((f.cudart.cudaDeviceGetAttribute cudaDevAttrComputeCapabilityMajor j).2,
         (f.cudart.cudaDeviceGetAttribute cudaDevAttrComputeCapabilityMinor j).2) :=
      funext fun j => by simp [capRead, hl]
    simp only [cuda_compute_capability, hh, Bool.true_eq_false, if_false, hl, hr,
      ne_eq, not_true_eq_false, not_false_eq_true, ite_false, reduceIte, hn,
      Int.toNat_natCast, capReduce, hfun]
    exact ⟨l1, l2⟩
  · -- LIBNVIDIAML
    rw [backendCount, hl] at hcnt
    have hr : f.nvml.nvmlDeviceGetCount_v2.1 = 0 := by
      simpa using congrArg Prod.fst hcnt
    have hn : f.nvml.nvmlDeviceGetCount_v2.2 = n := by
      have := congrArg Prod.snd hcnt
      simpa using this
    simp only [capSelRet, capMajorRet, capMinorRet, hl] at hok
    obtain ⟨l1, l2⟩ := nvmlCapLoop_ok f.nvml n 0 0 0
      (fun j h1 h2 => by
        obtain ⟨a, b, c⟩ := hok j (by omega)
        exact ⟨a, b⟩)
    have hfun : capRead h f = fun j =>
        ((f.nvml.nvmlDeviceGetCudaComputeCapability (f.nvml.nvmlDeviceGetHandleByIndex j).2).2.1,
         (f.nvml.nvmlDeviceGetCudaComputeCapability (f.nvml.nvmlDeviceGetHandleByIndex j).2).2.2) :=
      funext fun j => by simp [capRead, hl]
    simp only [cuda_compute_capability, hh, Bool.true_eq_false, if_false, hl, hr,
      ne_eq, not_true_eq_false, not_false_eq_true, ite_false, reduceIte, hn,
      capReduce, hfun]
    exact ⟨l1, l2⟩

/-- C5 witness: the specification's test fleet (8,6), (7,5), (8,0) reduces
to (7,5) with no error. -/
theorem cuda_compute_capability_fold_witness :
    (cuda_compute_capability hNvml fnsCapFleet staleCap).1.err = none ∧
    (cuda_compute_capability hNvml fnsCapFleet staleCap).1.major = 7 ∧
    (cuda_compute_capability hNvml fnsCapFleet staleCap).1.minor = 5 := by
  have h := cuda_compute_capability_fold hNvml fnsCapFleet staleCap 3
    (by decide) (by decide) (by decide) (by decide)
  have h2 := h.2.trans
    (by decide : capReduce ((idxsFrom 0 3).map (capRead hNvml fnsCapFleet)) = ((7 : Int), (5 : Int)))
  exact ⟨h.1, congrArg Prod.fst h2, congrArg Prod.snd h2⟩

/-- C6 (amended): for every valid Handle whose active backend reports
device count n and succeeds on every per-device query, cuda_check_vram
returns err NULL, count n, and total and free equal to the sums of the
per-device readings reduced modulo 2^64 (the accumulator is a C unsigned
long long); whenever the readings and their exact arithmetic sums fit in
64 bits - as they do for genuine uint64 device readings that do not
overflow jointly - total and free equal the exact arithmetic sums. -/
theorem cuda_check_vram_success_sums (h : cuda_handle_t) (f : QueryFns)
    (m0 : mem_info_t) (n : Nat)
    (hh : h.handle = true) (hlib : h.lib_t ≠ LIBUNKNOWN)
    (hcnt : backendCount h f = (0, (n : Int)))
    (hok : ∀ j, j < n → vramSelRet h f j = 0 ∧ vramMemRet h f j = 0) :
    (cuda_check_vram h f m0).1.err = none ∧
    (cuda_check_vram h f m0).1.count = (n : Int) ∧
    (cuda_check_vram h f m0).1.total =
      ((idxsFrom 0 n).map (fun j => vramTotalRead h f j % W64)).sum % W64 ∧
    (cuda_check_vram h f m0).1.free =
      ((idxsFrom 0 n).map (fun j => vramFreeRead h f j % W64)).sum % W64 ∧
    ((∀ j, j < n → vramTotalRead h f j < W64) →
      ((idxsFrom 0 n).map (vramTotalRead h f)).sum < W64 →
      (cuda_check_vram h f m0).1.total = ((idxsFrom 0 n).map (vramTotalRead h f)).sum) ∧
    ((∀ j, j < n → vramFreeRead h f j < W64) →
      ((idxsFrom 0 n).map (vramFreeRead h f)).sum < W64 →
      (cuda_check_vram h f m0).1.free = ((idxsFrom 0 n).map (vramFreeRead h f)).sum) := by
  have main : (cuda_check_vram h f m0).1.err = none ∧
      (cuda_check_vram h f m0).1.count = (n : Int) ∧
      (cuda_check_vram h f m0).1.total =
        ((idxsFrom 0 n).map (fun j => vramTotalRead h f j % W64)).sum % W64 ∧
      (cuda_check_vram h f m0).1.free =
        ((idxsFrom 0 n).map (fun j => vramFreeRead h f j % W64)).sum % W64 := by
    cases hl : h.lib_t
    · exact absurd hl hlib
    · -- LIBCUDART
      rw [backendCount, hl] at hcnt
      have hr : f.cudart.cudaGetDeviceCount.1 = 0 := by
        simpa using congrArg Prod.fst hcnt
      have hn : f.cudart.cudaGetDeviceCount.2 = (n : Int) := by
        simpa using congrArg Prod.snd hcnt
      simp only [vramSelRet, vramMemRet, hl] at hok
      obtain ⟨l1, l2, l3⟩ := cudartVramLoop_ok f.cudart h.verbose n 0 0 0 W64_pos W64_pos
        (fun j h1 h2 => hok j (by omega))
      have htot : (fun j => vramTotalRead h f j % W64) =
          fun j => (f.cudart.cudaMemGetInfo j).2.2 % W64 :=
        funext fun j => by simp [vramTotalRead, hl]
      have hfree : (fun j => vramFreeRead h f j % W64) =
          fun j => (f.cudart.cudaMemGetInfo j).2.1 % W64 :=
        funext fun j => by simp [vramFreeRead, hl]
      rw [Nat.zero_add] at l2 l3
      simp only [cuda_check_vram, hh, Bool.true_eq_false, if_false, hl, hr,
        ne_eq, not_true_eq_false, not_false_eq_true, ite_false, reduceIte, hn,
        Int.toNat_natCast, htot, hfree]
      exact ⟨l1, trivial, l2, l3⟩
    · -- LIBNVIDIAML
      rw [backendCount, hl] at hcnt
      have hr : f.nvml.nvmlDeviceGetCount_v2.1 = 0 := by
        simpa using congrArg Prod.fst hcnt
      have hn : f.nvml.nvmlDeviceGetCount_v2.2 = n := by
        simpa using congrArg Prod.snd hcnt
      simp only [vramSelRet, vramMemRet, hl] at hok
      obtain ⟨l1, l2, l3⟩ := nvmlVramLoop_ok f.nvml h.verbose n 0 0 0 W64_pos W64_pos
        (fun j h1 h2 => hok j (by omega))
      have htot : (fun j => vramTotalRead h f j % W64) =
          fun j => (f.nvml.nvmlDeviceGetMemoryInfo (f.nvml.nvmlDeviceGetHandleByIndex j).2).2.1 % W64 :=
        funext fun j => by simp [vramTotalRead, hl]
      have hfree : (fun j => vramFreeRead h f j % W64) =
          fun j => (f.nvml.nvmlDeviceGetMemoryInfo (f.nvml.nvmlDeviceGetHandleByIndex j).2).2.2 % W64 :=
        funext fun j => by simp [vramFreeRead, hl]
      rw [Nat.zero_add] at l2 l3
      simp only [cuda_check_vram, hh, Bool.true_eq_false, if_false, hl, hr,
        ne_eq, not_true_eq_false, not_false_eq_true, ite_false, reduceIte, hn,
        htot, hfree]
      exact ⟨l1, trivial, l2, l3⟩
  obtain ⟨e1, e2, e3, e4⟩ := main
  refine ⟨e1, e2, e3, e4, ?_, ?_⟩
  · intro hb hs
    rw [e3]
    have hmap : (idxsFrom 0 n).map (fun j => vramTotalRead h f j % W64) =
        (idxsFrom 0 n).map (vramTotalRead h f) :=
      List.map_congr_left fun j hj => by
        have := mem_idxsFrom n 0 j hj
        exact Nat.mod_eq_of_lt (hb j (by omega))
    rw [hmap, Nat.mod_eq_of_lt hs]
  · intro hb hs
    rw [e4]
    have hmap : (idxsFrom 0 n).map (fun j => vramFreeRead h f j % W64) =
        (idxsFrom 0 n).map (vramFreeRead h f) :=
      List.map_congr_left fun j hj => by
        have := mem_idxsFrom n 0 j hj
        exact Nat.mod_eq_of_lt (hb j (by omega))
    rw [hmap, Nat.mod_eq_of_lt hs]

/-- C6 counterexample: two devices whose total (and free) readings are each
2^63 make the unsigned 64-bit accumulation wrap to 0, so the returned
total and free are not the exact arithmetic sums 2^64 that the claim, read
over every fleet, requires. -/
theorem cuda_check_vram_sum_wrap_cex :
    (cuda_check_vram hCudart fnsWrap staleMemInfo).1.err = none ∧
    (cuda_check_vram hCudart fnsWrap staleMemInfo).1.count = 2 ∧
    (cuda_check_vram hCudart fnsWrap staleMemInfo).1.total = 0 ∧
    (cuda_check_vram hCudart fnsWrap staleMemInfo).1.total ≠
      9223372036854775808 + 9223372036854775808 ∧
    (cuda_check_vram hCudart fnsWrap staleMemInfo).1.free ≠
      9223372036854775808 + 9223372036854775808 := by
  refine ⟨by decide, by decide, by decide, by decide, by decide⟩

/-- C6 witness: the specification's synthetic fleet {total 8e9, free 2e9}
and {total 4e9, free 1e9} yields count 2, total 12e9, free 3e9, no error. -/
theorem cuda_check_vram_success_sums_witness :
    (cuda_check_vram hNvml fnsTwoDevices staleMemInfo).1.err = none ∧
    (cuda_check_vram hNvml fnsTwoDevices staleMemInfo).1.count = 2 ∧
    (cuda_check_vram hNvml fnsTwoDevices staleMemInfo).1.total = 12000000000 ∧
    (cuda_check_vram hNvml fnsTwoDevices staleMemInfo).1.free = 3000000000 := by
  have h := cuda_check_vram_success_sums hNvml fnsTwoDevices staleMemInfo 2
    (by decide) (by decide) (by decide) (by decide)
  refine ⟨h.1, h.2.1, ?_, ?_⟩
  · rw [h.2.2.2.2.1 (by decide) (by decide)]
    decide
  · rw [h.2.2.2.2.2 (by decide) (by decide)]
    decide

/-- C3 (amended): when a per-device step (device select / per-device handle
lookup / memory-info query) is the first to fail at index i, cuda_check_vram
returns a non-null err naming index i and the failing step's return code,
and its total and free fields hold exactly the partial sums accumulated
over devices 0..i-1 (reduced modulo 2^64).  The partial sums are written
into the result, not discarded: err alone signals the failure. -/
theorem cuda_check_vram_device_failure (h : cuda_handle_t) (f : QueryFns)
    (m0 : mem_info_t) (n i : Nat)
    (hh : h.handle = true) (hlib : h.lib_t ≠ LIBUNKNOWN)
    (hcnt : backendCount h f = (0, (n : Int)))
    (hi : i < n)
    (hok : ∀ j, j < i → vramSelRet h f j = 0 ∧ vramMemRet h f j = 0)
    (hfail : vramSelRet h f i ≠ 0 ∨ vramMemRet h f i ≠ 0) :
    (cuda_check_vram h f m0).1.err = some (vramFailMsg h f i) ∧
    (cuda_check_vram h f m0).1.total =
      ((idxsFrom 0 i).map (fun j => vramTotalRead h f j % W64)).sum % W64 ∧
    (cuda_check_vram h f m0).1.free =
      ((idxsFrom 0 i).map (fun j => vramFreeRead h f j % W64)).sum % W64 := by
  cases hl : h.lib_t
  · exact absurd hl hlib
  · -- LIBCUDART
    rw [backendCount, hl] at hcnt
    have hr : f.cudart.cudaGetDeviceCount.1 = 0 := by
      simpa using congrArg Prod.fst hcnt
    have hn : f.cudart.cudaGetDeviceCount.2 = (n : Int) := by
      simpa using congrArg Prod.snd hcnt
    simp only [vramSelRet, vramMemRet, hl] at hok hfail
    obtain ⟨l1, l2, l3⟩ := cudartVramLoop_fail f.cudart h.verbose i n 0 0 0 hi
      W64_pos W64_pos
      (fun j hj => by
        rw [Nat.zero_add]
        exact hok j hj)
      (by
        simp only [Nat.zero_add]
        exact hfail)
    rw [Nat.zero_add] at l1
    rw [Nat.zero_add] at l2 l3
    have htot : (fun j => vramTotalRead h f j % W64) =
        fun j => (f.cudart.cudaMemGetInfo j).2.2 % W64 :=
      funext fun j => by simp [vramTotalRead, hl]
    have hfree : (fun j => vramFreeRead h f j % W64) =
        fun j => (f.cudart.cudaMemGetInfo j).2.1 % W64 :=
      funext fun j => by simp [vramFreeRead, hl]
    simp only [cuda_check_vram, hh, Bool.true_eq_false, if_false, hl, hr,
      ne_eq, not_true_eq_false, not_false_eq_true, ite_false, reduceIte, hn,
      Int.toNat_natCast, htot, hfree, vramFailMsg]
    exact ⟨l1, l2, l3⟩
  · -- LIBNVIDIAML
    rw [backendCount, hl] at hcnt
    have hr : f.nvml.nvmlDeviceGetCount_v2.1 = 0 := by
      simpa using congrArg Prod.fst hcnt
    have hn : f.nvml.nvmlDeviceGetCount_v2.2 = n := by
      simpa using congrArg Prod.snd hcnt
    simp only [vramSelRet, vramMemRet, hl] at hok hfail
    obtain ⟨l1, l2, l3⟩ := nvmlVramLoop_fail f.nvml h.verbose i n 0 0 0 hi
      W64_pos W64_pos
      (fun j hj => by
        rw [Nat.zero_add]
        exact hok j hj)
      (by
        simp only [Nat.zero_add]
        exact hfail)
    rw [Nat.zero_add] at l1
    rw [Nat.zero_add] at l2 l3
    have htot : (fun j => vramTotalRead h f j % W64) =
        fun j => (f.nvml.nvmlDeviceGetMemoryInfo (f.nvml.nvmlDeviceGetHandleByIndex j).2).2.1 % W64 :=
      funext fun j => by simp [vramTotalRead, hl]
    have hfree : (fun j => vramFreeRead h f j % W64) =
        fun j => (f.nvml.nvmlDeviceGetMemoryInfo (f.nvml.nvmlDeviceGetHandleByIndex j).2).2.2 % W64 :=
      funext fun j => by simp [vramFreeRead, hl]
    simp only [cuda_check_vram, hh, Bool.true_eq_false, if_false, hl, hr,
      ne_eq, not_true_eq_false, not_false_eq_true, ite_false, reduceIte, hn,
      htot, hfree, vramFailMsg]
    exact ⟨l1, l2, l3⟩

/-- C3 counterexample: with device 0 reading total 8 / free 2 and device 1
failing its select step, cuda_check_vram reports the failure at index 1 but
its result still carries the partial sums total 8 / free 2 accumulated from
device 0 - the claim's "total and free are not populated with partially
aggregated values" is false on the code. -/
theorem cuda_check_vram_partial_sums_cex :
    (cuda_check_vram hCudart fnsDev1Fails staleMemInfo).1.err =
      some ("unable to get device handle 1: 1") ∧
    (cuda_check_vram hCudart fnsDev1Fails staleMemInfo).1.total = 8 ∧
    (cuda_check_vram hCudart fnsDev1Fails staleMemInfo).1.free = 2 := by
  refine ⟨by decide, by decide, by decide⟩

/-- C3 witness: the amended theorem applied to the same two-device fleet
with device 1 failing. -/
theorem cuda_check_vram_device_failure_witness :
    (cuda_check_vram hCudart fnsDev1Fails staleMemInfo).1.err =
      some (vramFailMsg hCudart fnsDev1Fails 1) ∧
    (cuda_check_vram hCudart fnsDev1Fails staleMemInfo).1.total =
      ((idxsFrom 0 1).map (fun j => vramTotalRead hCudart fnsDev1Fails j % W64)).sum % W64 ∧
    (cuda_check_vram hCudart fnsDev1Fails staleMemInfo).1.free =
      ((idxsFrom 0 1).map (fun j => vramFreeRead hCudart fnsDev1Fails j % W64)).sum % W64 :=
  cuda_check_vram_device_failure hCudart fnsDev1Fails staleMemInfo 2 1
    (by decide) (by decide) (by decide) (by decide) (by decide) (Or.inl (by decide))

/-- C1 (code divergence at the failing input): with every symbol resolving
except cudaSetDevice (null) and nvmlInit_v2 succeeding, activation sets the
Backend Tag to LIBNVIDIAML, but the driver-version switch's LIBNVIDIAML
case lacks a break and falls through into the default case, which clears
the library reference and sets err - contradicting the claim that the
driver-version diagnostic step never makes initialization fail and never
alters the Handle or its error state. -/
theorem cuda_init_mgmt_driver_report_fatal :
    (cuda_init ("libnvidia-ml.so") envNvmlOnly staleInitResp).ch.lib_t = LIBNVIDIAML ∧
    (cuda_init ("libnvidia-ml.so") envNvmlOnly staleInitResp).err =
      some ("unknown error: dlsym succeded but function pointers are unassigned") ∧
    (cuda_init ("libnvidia-ml.so") envNvmlOnly staleInitResp).ch.handle = false := by
  refine ⟨by decide, by decide, by decide⟩

/-- C2 (code divergence at the failing input): with the loader returning a
null address for nvmlShutdown and every other symbol resolving, cuda_init
does not fail - its null check tests the address of the table slot
(&resp->ch.field), which is never NULL - and proceeds through backend
activation to a successful return with the nvmlShutdown slot still null
and err NULL, contradicting the claim that any unresolved entry point is
fatal and that activation is never reached with a null slot. -/
theorem cuda_init_unresolved_symbol_not_fatal :
    (cuda_init ("libcudart.so") envMissingShutdown staleInitResp).err = none ∧
    (cuda_init ("libcudart.so") envMissingShutdown staleInitResp).ch.nvmlShutdown = false ∧
    (cuda_init ("libcudart.so") envMissingShutdown staleInitResp).ch.lib_t = LIBCUDART := by
  refine ⟨by decide, by decide, by decide⟩

/-- C4 counterexample: the library opens, every symbol resolves, the
runtime's "select device 0" call returns non-success (code 1) and the
management init would succeed, yet cuda_init returns an error with Backend
Tag unknown - the management vocabulary's init entry point is not
attempted, so the claim's fallback-on-call-failure is false on the code. -/
theorem cuda_init_no_mgmt_fallback_cex :
    (cuda_init ("libcudart.so") envSetDeviceFails staleInitResp).err =
      some ("cudart vram init failure: 1") ∧
    (cuda_init ("libcudart.so") envSetDeviceFails staleInitResp).ch.lib_t = LIBUNKNOWN ∧
    (cuda_init ("libcudart.so") envSetDeviceFails staleInitResp).ch.handle = false := by
  refine ⟨by decide, by decide, by decide⟩

/-- C4 (amended): when the runtime select-device entry point is resolved
(non-null) and its call returns non-success, cuda_init fails immediately
with the "cudart vram init failure" error, releases the library and leaves
the Backend Tag unknown; the management vocabulary's init entry point is
not invoked (the result is independent of its return value).  Fallback to
the management vocabulary happens only when the runtime select-device
pointer itself is null. -/
theorem cuda_init_setdevice_failure_fatal (p : String) (env : InitEnv)
    (r0 : cuda_init_resp_t)
    (hopen : env.openOk = true)
    (hslot : env.resolve ("cudaSetDevice") = true)
    (hret : env.cudaSetDevice0 ≠ 0) :
    (cuda_init p env r0).err = some (snprintf255 ("cudart vram init failure: " ++
      toString env.cudaSetDevice0)) ∧
    (cuda_init p env r0).ch.lib_t = LIBUNKNOWN ∧
    (cuda_init p env r0).ch.handle = false ∧
    (∀ v, cuda_init p { env with nvmlInit := v } r0 = cuda_init p env r0) := by
  have h1 : ¬ (env.openOk = false) := by simp [hopen]
  refine ⟨?_, ?_, ?_, fun v => ?_⟩ <;>
    simp [cuda_init, resolveAll, h1, hslot, hret]

/-- C4 witness: the amended theorem applied at the counterexample input. -/
theorem cuda_init_setdevice_failure_fatal_witness :
    (cuda_init ("libcudart.so") envSetDeviceFails staleInitResp).err =
      some ("cudart vram init failure: 1") ∧
    (cuda_init ("libcudart.so") envSetDeviceFails staleInitResp).ch.lib_t = LIBUNKNOWN := by
  have h := cuda_init_setdevice_failure_fatal ("libcudart.so") envSetDeviceFails
    staleInitResp (by decide) (by decide) (by decide)
  refine ⟨?_, h.2.1⟩
  rw [h.1]
  decide

/-- C8 (amended): when the loader's open step fails, cuda_init returns err
equal to the formatted load-failure message truncated to the 255 characters
snprintf writes into the 256-byte buffer, with the Handle left invalid
(library reference null, Backend Tag unknown); whenever the formatted
message fits within 255 characters, the err text contains both the library
path and the loader diagnostic as substrings. -/
theorem cuda_init_load_failure_reports (p : String) (env : InitEnv)
    (r0 : cuda_init_resp_t)
    (hopen : env.openOk = false) :
    (cuda_init p env r0).err = some (snprintf255 ("Unable to load " ++ p ++
      " library to query for Nvidia GPUs: " ++ env.loadErrMsg)) ∧
    (cuda_init p env r0).ch.handle = false ∧
    (cuda_init p env r0).ch.lib_t = LIBUNKNOWN ∧
    (("Unable to load " ++ p ++ " library to query for Nvidia GPUs: " ++
        env.loadErrMsg).length ≤ 255 →
      strContains ((cuda_init p env r0).err.getD ("")) p = true ∧
      strContains ((cuda_init p env r0).err.getD ("")) env.loadErrMsg = true) := by
  have e1 : (cuda_init p env r0).err = some (snprintf255 ("Unable to load " ++ p ++
      " library to query for Nvidia GPUs: " ++ env.loadErrMsg)) := by
    simp [cuda_init, hopen]
  refine ⟨e1, by simp [cuda_init, hopen], by simp [cuda_init, hopen], ?_⟩
  intro hlen
  rw [e1]
  simp only [Option.getD_some]
  rw [snprintf255_eq hlen]
  constructor
  · unfold strContains
    have hd : ("Unable to load " ++ p ++ " library to query for Nvidia GPUs: " ++
        env.loadErrMsg).data =
        ("Unable to load ").data ++ (p.data ++
          ((" library to query for Nvidia GPUs: ").data ++ env.loadErrMsg.data)) := by
      simp [String.data_append, List.append_assoc]
    rw [hd]
    exact containsChars_append _ _ _
  · unfold strContains
    have hd : ("Unable to load " ++ p ++ " library to query for Nvidia GPUs: " ++
        env.loadErrMsg).data =
        ("Unable to load " ++ p ++ " library to query for Nvidia GPUs: ").data ++
          (env.loadErrMsg.data ++ []) := by
      simp [String.data_append]
    rw [hd]
    exact containsChars_append _ _ _

/-- C8 counterexample: with a 300-character library path the formatted
message exceeds the 256-byte snprintf buffer, so the loader diagnostic
"zz" is truncated away and is not a substring of the returned err -
refuting the claim for every path and diagnostic. -/
theorem cuda_init_load_truncation_cex :
    (cuda_init longPath envOpenFails staleInitResp).err ≠ none ∧
    strContains ((cuda_init longPath envOpenFails staleInitResp).err.getD (""))
      ("zz") = false := by
  refine ⟨by decide, by decide⟩

/-- C8 witness: a realistic short path and diagnostic both appear in the
error text, and the handle is left invalid. -/
theorem cuda_init_load_failure_reports_witness :
    strContains ((cuda_init ("/usr/lib/libcuda.so") envOpenFailsShort staleInitResp).err.getD (""))
      ("/usr/lib/libcuda.so") = true ∧
    strContains ((cuda_init ("/usr/lib/libcuda.so") envOpenFailsShort staleInitResp).err.getD (""))
      ("not found") = true ∧
    (cuda_init ("/usr/lib/libcuda.so") envOpenFailsShort staleInitResp).ch.handle = false := by
  have h := cuda_init_load_failure_reports ("/usr/lib/libcuda.so") envOpenFailsShort
    staleInitResp (by decide)
  have h4 := h.2.2.2 (by decide)
  exact ⟨h4.1, h4.2, h.2.1⟩

end GpuInfoCuda
